import Mathlib

/-!
Shallow embedding of the quota ledger and metered gateway of
`backend/routes/llmRoutes.js` (the token-resale service).

Conventions of the embedding:
* currency amounts (`amount`, `pricePerToken`) are rationals (`ℚ`), token
  counts are integers (`ℤ`) or naturals (`ℕ`), document ids are `ℕ`;
* the Mongo user store is a `List User`; `findById` is `List.find?` on ids,
  `save` replaces the document with the matching id;
* each HTTP handler becomes a pure function returning
  `Except Err Ok × List User`: every early `return res.status(4xx)` yields
  `(.error e, db)` with the store untouched, the success path yields the
  mutated store;
* the upstream provider call is an oracle parameter (`ProviderResponse`),
  since its network behaviour is external to the ledger.
-/

/-- Update the first element of a list satisfying `p` by `f`, leaving the
rest unchanged.  This models a JS in-place mutation of the element returned
by `Array.prototype.find` / the element at `findIndex`. -/
def updateFirst (p : α → Bool) (f : α → α) : List α → List α
  | [] => []
  | x :: xs => if p x then f x :: xs else x :: updateFirst p f xs

/-- Boolean infix test on lists, modelling JS `String.prototype.includes`
after `toList`. -/
def listIsInfix [BEq α] (needle : List α) : List α → Bool
  | [] => needle.isEmpty
  | x :: xs => needle.isPrefixOf (x :: xs) || listIsInfix needle xs

/-- `s.includes(sub)` on strings. -/
def strContains (s sub : String) : Bool := listIsInfix sub.toList s.toList

/-- `s.startsWith(sub)` on strings. -/
def strStartsWith (s sub : String) : Bool := sub.toList.isPrefixOf s.toList

/-- `s.toLowerCase()`: lower-case every character. -/
def strToLower (s : String) : String := ⟨s.data.map Char.toLower⟩

/-! ## Data model -/

/-- An entry of `user.api_keys`: a user-registered upstream credential
(`OwnedKey` of the design).  `key` is the encrypted credential material. -/
structure ApiKey where
  id : Nat
  name : String
  key : String
  available : Int
deriving DecidableEq, Repr

/-- An entry of `user.temporaryTokens`: a resellable / purchased quota
bundle (`QuotaBundle` of the design).  `apiKeyName` is optional (`none`
models the field being absent on the Mongo subdocument). -/
structure TempToken where
  id : Nat
  name : String
  apiKey : String
  apiKeyName : Option String
  tokensRemaining : Int
  expiresAt : Int
  pricePerToken : ℚ
  sellerId : Nat
  originalApiKeyId : Nat
deriving DecidableEq, Repr

/-- A user document: balance (`amount`), owned keys, purchased bundles. -/
structure User where
  id : Nat
  amount : ℚ
  api_keys : List ApiKey
  temporaryTokens : List TempToken
deriving DecidableEq, Repr

/-- `User.findById` over the store. -/
def findUser (db : List User) (uid : Nat) : Option User :=
  db.find? (fun u => u.id == uid)

/-- `doc.save()`: replace the stored document(s) with id `uid` by `u`. -/
def updateUser (db : List User) (uid : Nat) (u : User) : List User :=
  db.map (fun x => if x.id == uid then u else x)

/-! ## Provider inference (`getProviderFromModel`) -/

inductive Provider where
  | openai
  | anthropic
  | gemini
deriving DecidableEq, Repr

/-- `getProviderFromModel` of the source: lowercase the name, then test the
substrings `gpt`, `claude`, `gemini` in that order; `none` models the
thrown `Unable to determine provider` error. -/
def getProviderFromModel (modelName : String) : Option Provider :=
  let lower := strToLower modelName
  if strContains lower "gpt" || strStartsWith lower "gpt" then some .openai
  else if strContains lower "claude" then some .anthropic
  else if strContains lower "gemini" then some .gemini
  else none

/-- The provider-inference rule as the spec words it: a fixed
case-insensitive substring policy, contains "gpt" → OpenAI, else contains
"claude" → Anthropic, else contains "gemini" → Gemini, else fail. -/
def getProviderSpec (modelName : String) : Option Provider :=
  let lower := strToLower modelName
  if strContains lower "gpt" then some .openai
  else if strContains lower "claude" then some .anthropic
  else if strContains lower "gemini" then some .gemini
  else none

/-! ## Token usage (`handleAnthropicRequest` / `handleGeminiRequest`) -/

structure Usage where
  promptTokens : Nat
  completionTokens : Nat
  totalTokens : Nat
deriving DecidableEq, Repr

/-- `Math.ceil(n / d)` on naturals. -/
def jsCeilDiv (n d : Nat) : Nat := (n + d - 1) / d

/-- The usage block computed by `handleAnthropicRequest`:
`Math.ceil(message.length / 4)` for the prompt, the same on the response
text, summed for the total. -/
def anthropicUsage (message text : String) : Usage :=
  let promptTokens := jsCeilDiv message.length 4
  let completionTokens := jsCeilDiv text.length 4
  { promptTokens := promptTokens, completionTokens := completionTokens,
    totalTokens := promptTokens + completionTokens }

/-- The usage block computed by `handleGeminiRequest` (same estimation). -/
def geminiUsage (message text : String) : Usage :=
  let promptTokens := jsCeilDiv message.length 4
  let completionTokens := jsCeilDiv text.length 4
  { promptTokens := promptTokens, completionTokens := completionTokens,
    totalTokens := promptTokens + completionTokens }

/-- What `handleProviderRequest` returns to the chat route: completion text
plus a usage block.  Treated as an oracle for the upstream call. -/
structure ProviderResponse where
  text : String
  usage : Usage
deriving DecidableEq, Repr

/-! ## Purchase (`POST /buy-tokens`) -/

inductive BuyError where
  | invalidInput
  | buyerNotFound
  | insufficientBalance
  | sellerNotFound
  | tokenNotFound
  | amountTooSmall
  | insufficientSupply
deriving DecidableEq, Repr

/-- The `purchasedToken` projection of the success response:
`{_id, name, tokensRemaining, expiresAt}`. -/
structure PurchasedTokenView where
  id : Nat
  name : String
  tokensRemaining : Int
  expiresAt : Int
deriving DecidableEq, Repr

/-- The success payload of `/buy-tokens`. -/
structure BuyOk where
  tokensReceived : Int
  amountSpent : ℚ
  remainingBalance : ℚ
  purchasedToken : PurchasedTokenView
deriving DecidableEq, Repr

/-- The mutation block of `/buy-tokens` once every guard has passed:
debit the buyer, credit the seller, decrement the seller bundle, merge or
append the buyer-side bundle (`newId` is the id Mongo generates for a
pushed subdocument), prune the seller bundle when it is depleted, then
save buyer and seller. -/
def applyPurchase (db : List User) (buyerId sellerId tokenId newId : Nat)
    (buyer seller : User) (token : TempToken) (tokensToReceive : Int) :
    BuyOk × List User :=
  let actualAmount : ℚ := (tokensToReceive : ℚ) * token.pricePerToken
  let buyer1 : User := { buyer with amount := buyer.amount - actualAmount }
  let seller1 : User := { seller with amount := seller.amount + actualAmount }
  let newRemaining : Int := token.tokensRemaining - tokensToReceive
  let sellerToks :=
    updateFirst (fun t => t.id == tokenId)
      (fun t => { t with tokensRemaining := newRemaining })
      seller1.temporaryTokens
  let seller2 : User := { seller1 with temporaryTokens := sellerToks }
  let merged :=
    match buyer.temporaryTokens.find?
        (fun t => t.name == token.name && t.sellerId == sellerId) with
    | some old =>
      (updateFirst (fun (t : TempToken) => t.name == token.name && t.sellerId == sellerId)
         (fun (t : TempToken) => { t with tokensRemaining := t.tokensRemaining + tokensToReceive })
         buyer.temporaryTokens,
       { old with tokensRemaining := old.tokensRemaining + tokensToReceive })
    | none =>
      let newToken : TempToken :=
        { id := newId, name := token.name, apiKey := token.apiKey,
          apiKeyName := none, tokensRemaining := tokensToReceive,
          expiresAt := token.expiresAt, pricePerToken := token.pricePerToken,
          sellerId := sellerId, originalApiKeyId := token.originalApiKeyId }
      (buyer.temporaryTokens ++ [newToken], newToken)
  let buyer2 : User := { buyer1 with temporaryTokens := merged.1 }
  let purchasedToken : TempToken := merged.2
  let seller3 : User :=
    if newRemaining ≤ 0 then
      { seller2 with temporaryTokens :=
          seller2.temporaryTokens.filter (fun t => t.id != tokenId) }
    else seller2
  let db1 := updateUser db buyerId buyer2
  let db2 := updateUser db1 sellerId seller3
  ({ tokensReceived := tokensToReceive, amountSpent := actualAmount,
     remainingBalance := buyer2.amount,
     purchasedToken := { id := purchasedToken.id, name := purchasedToken.name,
                         tokensRemaining := purchasedToken.tokensRemaining,
                         expiresAt := purchasedToken.expiresAt } }, db2)

/-- `POST /buy-tokens`: guards in source order, then the mutation block.
Every failing branch returns the store unchanged (the route returns before
mutating, or the transaction aborts). -/
def buyTokens (db : List User) (buyerId sellerId tokenId : Nat) (amount : ℚ)
    (newId : Nat) : Except BuyError BuyOk × List User :=
  if amount ≤ 0 then (.error .invalidInput, db)
  else match findUser db buyerId with
  | none => (.error .buyerNotFound, db)
  | some buyer =>
    if buyer.amount < amount then (.error .insufficientBalance, db)
    else match findUser db sellerId with
    | none => (.error .sellerNotFound, db)
    | some seller =>
      match seller.temporaryTokens.find? (fun t => t.id == tokenId) with
      | none => (.error .tokenNotFound, db)
      | some token =>
        let tokensToReceive : Int := ⌊amount / token.pricePerToken⌋
        if tokensToReceive ≤ 0 then (.error .amountTooSmall, db)
        else if token.tokensRemaining < tokensToReceive then
          (.error .insufficientSupply, db)
        else
          let r := applyPurchase db buyerId sellerId tokenId newId
            buyer seller token tokensToReceive
          (.ok r.1, r.2)

/-! ## Chat (`POST /chat`) -/

inductive KeyType where
  | temp
  | user
deriving DecidableEq, Repr

inductive ChatError where
  | missingParams
  | userNotFound
  | tempKeyNotFound
  | exhausted
  | sellerNotFound
  | originalKeyNotFound
  | unknownProvider
  | apiKeyNotFound
  | insufficientTokens
deriving DecidableEq, Repr

/-- What the `temp` branch of `/chat` has resolved by the time it calls the
provider: the bundle, the seller, the seller's original key (whose
encrypted credential is decrypted and used), and the inferred provider. -/
structure TempResolved where
  tempKey : TempToken
  seller : User
  originalApiKey : ApiKey
  provider : Provider
deriving DecidableEq, Repr

/-- The `keyType === 'temp'` branch of `/chat` up to the provider call:
find the bundle, reject exhausted bundles, find the seller, find the
seller's original key, infer the provider from `tempKey.apiKeyName`
falling back to the original key's name. -/
def resolveTempKey (db : List User) (user : User) (keyId : Nat) :
    Except ChatError TempResolved :=
  match user.temporaryTokens.find? (fun k => k.id == keyId) with
  | none => .error .tempKeyNotFound
  | some tempKey =>
    if tempKey.tokensRemaining ≤ 0 then .error .exhausted
    else match findUser db tempKey.sellerId with
    | none => .error .sellerNotFound
    | some seller =>
      match seller.api_keys.find? (fun k => k.id == tempKey.originalApiKeyId) with
      | none => .error .originalKeyNotFound
      | some originalApiKey =>
        match getProviderFromModel
            (tempKey.apiKeyName.getD originalApiKey.name) with
        | none => .error .unknownProvider
        | some provider =>
          .ok { tempKey := tempKey, seller := seller,
                originalApiKey := originalApiKey, provider := provider }

/-- The success payload of `/chat`. -/
structure ChatOk where
  response : String
  usage : Usage
  remainingTokens : Int
deriving DecidableEq, Repr

/-- `POST /chat`.  `response` is the oracle for `handleProviderRequest`
(the upstream call succeeding with this text and usage).  The `temp`
branch debits the bundle and prunes it at zero; the `user` branch debits
the owned key's `available`. -/
def chat (db : List User) (userId : Nat) (message : String)
    (keyType : KeyType) (keyId : Nat) (modelId : String)
    (response : ProviderResponse) : Except ChatError ChatOk × List User :=
  if message.isEmpty || modelId.isEmpty then (.error .missingParams, db)
  else match findUser db userId with
  | none => (.error .userNotFound, db)
  | some user =>
    match keyType with
    | .temp =>
      match resolveTempKey db user keyId with
      | .error e => (.error e, db)
      | .ok r =>
        let tokensUsed : Int := (response.usage.totalTokens : Int)
        if r.tempKey.tokensRemaining < tokensUsed then
          (.error .insufficientTokens, db)
        else
          let newRemaining := r.tempKey.tokensRemaining - tokensUsed
          let userToks :=
            updateFirst (fun k => k.id == keyId)
              (fun k => { k with tokensRemaining := newRemaining })
              user.temporaryTokens
          let user1 : User := { user with temporaryTokens := userToks }
          let user2 : User :=
            if newRemaining ≤ 0 then
              { user1 with temporaryTokens :=
                  user1.temporaryTokens.filter (fun k => k.id != keyId) }
            else user1
          (.ok { response := response.text, usage := response.usage,
                 remainingTokens := newRemaining },
           updateUser db userId user2)
    | .user =>
      match user.api_keys.find? (fun k => k.id == keyId) with
      | none => (.error .apiKeyNotFound, db)
      | some userKey =>
        match getProviderFromModel userKey.name with
        | none => (.error .unknownProvider, db)
        | some _provider =>
          let tokensUsed : Int := (response.usage.totalTokens : Int)
          if userKey.available < tokensUsed then
            (.error .insufficientTokens, db)
          else
            let newAvailable := userKey.available - tokensUsed
            let userKeys :=
              updateFirst (fun k => k.id == keyId)
                (fun k => { k with available := newAvailable })
                user.api_keys
            let user1 : User := { user with api_keys := userKeys }
            (.ok { response := response.text, usage := response.usage,
                   remainingTokens := newAvailable },
             updateUser db userId user1)

/-! ## Helper lemmas -/

theorem listIsInfix_of_isPrefixOf [BEq α] {needle l : List α}
    (h : needle.isPrefixOf l = true) : listIsInfix needle l = true := by
  cases l with
  | nil =>
    cases needle with
    | nil => rfl
    | cons a as => simp [List.isPrefixOf] at h
  | cons x xs => simp [listIsInfix, h]

/-- A `startsWith` test is absorbed by the `includes` test it accompanies:
a prefix occurrence is in particular a substring occurrence. -/
theorem strContains_or_startsWith (s sub : String) :
    (strContains s sub || strStartsWith s sub) = strContains s sub := by
  cases hc : strContains s sub with
  | true => rfl
  | false =>
    cases hp : strStartsWith s sub with
    | true =>
      have hinf := listIsInfix_of_isPrefixOf hp
      rw [strContains] at hc
      rw [hc] at hinf
      exact absurd hinf (by simp)
    | false => rfl

theorem jsCeilDiv_eq_ceil (n : ℕ) : (jsCeilDiv n 4 : ℕ) = ⌈(n : ℚ) / 4⌉₊ := by
  rw [jsCeilDiv]
  refine le_antisymm ?_ ?_
  · have h := Nat.le_ceil ((n : ℚ) / 4)
    rw [div_le_iff₀ (by norm_num)] at h
    have hn : n ≤ 4 * ⌈(n : ℚ) / 4⌉₊ := by exact_mod_cast (by linarith : (n : ℚ) ≤ 4 * (⌈(n : ℚ) / 4⌉₊ : ℚ))
    omega
  · rw [Nat.ceil_le, div_le_iff₀ (by norm_num)]
    have h2 : n ≤ (n + 4 - 1) / 4 * 4 := by omega
    exact_mod_cast h2

/-! ## Claims -/

/-- C2: provider inference is the fixed case-insensitive first-match
substring rule -- a name containing "gpt" maps to OpenAI; otherwise one
containing "claude" maps to Anthropic; otherwise one containing "gemini"
maps to Gemini; any other name fails.  "gpt-4" → OpenAI,
"claude-3-opus-20240229" → Anthropic, "gemini-1.5-pro" → Gemini,
"llama-3" → error, and names containing several substrings resolve by the
stated check order (first match wins). -/
theorem provider_inference_first_match :
    (∀ s : String, getProviderFromModel s = getProviderSpec s) ∧
    getProviderFromModel "gpt-4" = some Provider.openai ∧
    getProviderFromModel "claude-3-opus-20240229" = some Provider.anthropic ∧
    getProviderFromModel "gemini-1.5-pro" = some Provider.gemini ∧
    getProviderFromModel "llama-3" = none ∧
    getProviderFromModel "GPT-4" = some Provider.openai ∧
    getProviderFromModel "gemini-claude-gpt" = some Provider.openai ∧
    getProviderFromModel "gemini-claude" = some Provider.anthropic := by
  refine ⟨?_, by decide, by decide, by decide, by decide, by decide, by decide, by decide⟩
  intro s
  simp only [getProviderFromModel, getProviderSpec, strContains_or_startsWith]

/-- C3: for the two providers without exact token counts (Anthropic and
Gemini), usage is promptTokens = ceil(length(message)/4),
completionTokens = ceil(length(responseText)/4), with totalTokens their
sum; a 17-character message and a 9-character response yield 5, 3, 8. -/
theorem token_estimation_ceil :
    (∀ m t : String, anthropicUsage m t = geminiUsage m t) ∧
    (∀ m t : String,
      (anthropicUsage m t).promptTokens = ⌈(m.length : ℚ) / 4⌉₊ ∧
      (anthropicUsage m t).completionTokens = ⌈(t.length : ℚ) / 4⌉₊ ∧
      (anthropicUsage m t).totalTokens =
        (anthropicUsage m t).promptTokens + (anthropicUsage m t).completionTokens) ∧
    anthropicUsage "abcdefghijklmnopq" "abcdefghi" =
      { promptTokens := 5, completionTokens := 3, totalTokens := 8 } ∧
    geminiUsage "abcdefghijklmnopq" "abcdefghi" =
      { promptTokens := 5, completionTokens := 3, totalTokens := 8 } := by
  refine ⟨fun m t => rfl,
    fun m t => ⟨jsCeilDiv_eq_ceil _, jsCeilDiv_eq_ceil _, rfl⟩,
    by decide, by decide⟩

/-! ### Store lemmas -/

theorem findUser_some_id {db : List User} {uid : Nat} {v : User}
    (h : findUser db uid = some v) : v.id = uid := by
  unfold findUser at h
  simpa using List.find?_some h

theorem findUser_updateUser_self {db : List User} {uid : Nat} {v u : User}
    (hv : findUser db uid = some v) (hu : u.id = uid) :
    findUser (updateUser db uid u) uid = some u := by
  have hvid : v.id = uid := findUser_some_id hv
  unfold findUser updateUser at *
  rw [List.find?_map]
  have hpred : ((fun w : User => w.id == uid) ∘ fun x : User =>
      if x.id == uid then u else x) = fun x : User => x.id == uid := by
    funext x
    by_cases h : x.id = uid
    · simp [h, hu]
    · simp [h]
  rw [hpred, hv]
  simp [hvid, hu]

theorem findUser_updateUser_other {db : List User} {uid uid2 : Nat} {u : User}
    (hid : u.id = uid) (hne : uid ≠ uid2) :
    findUser (updateUser db uid u) uid2 = findUser db uid2 := by
  unfold findUser updateUser
  rw [List.find?_map]
  have hpred : ((fun w : User => w.id == uid2) ∘ fun x : User =>
      if x.id == uid then u else x) = fun x : User => x.id == uid2 := by
    funext x
    by_cases h : x.id = uid
    · simp [h, hid, hne]
    · simp [h]
  rw [hpred]
  cases hfound : List.find? (fun x : User => x.id == uid2) db with
  | none => simp
  | some v =>
    have hv2 : v.id = uid2 := by simpa using List.find?_some hfound
    have : ¬ v.id = uid := by
      rw [hv2]
      exact fun hcon => hne hcon.symm
    simp [this]

/-! ### updateFirst lemmas -/

theorem updateFirst_of_forall_neg {p : α → Bool} {f : α → α} {l : List α}
    (h : ∀ a ∈ l, p a = false) : updateFirst p f l = l := by
  induction l with
  | nil => rfl
  | cons x xs ih =>
    rw [updateFirst, if_neg (by simp [h x (List.mem_cons_self x xs)]), ih]
    intro a ha
    exact h a (List.mem_cons_of_mem x ha)

theorem updateFirst_append_of_none {p : α → Bool} {f : α → α} {l₁ l₂ : List α}
    (h : ∀ a ∈ l₁, p a = false) :
    updateFirst p f (l₁ ++ l₂) = l₁ ++ updateFirst p f l₂ := by
  induction l₁ with
  | nil => rfl
  | cons x xs ih =>
    rw [List.cons_append, updateFirst,
      if_neg (by simp [h x (List.mem_cons_self x xs)]), ih]
    · rfl
    · intro a ha
      exact h a (List.mem_cons_of_mem x ha)

theorem mem_updateFirst {p : α → Bool} {f : α → α} {l : List α} {y : α}
    (hy : y ∈ updateFirst p f l) :
    y ∈ l ∨ ∃ x ∈ l, p x = true ∧ y = f x := by
  induction l with
  | nil => simp [updateFirst] at hy
  | cons x xs ih =>
    rw [updateFirst] at hy
    by_cases h : p x = true
    · rw [if_pos h] at hy
      rcases List.mem_cons.mp hy with h1 | h1
      · exact Or.inr ⟨x, List.mem_cons_self x xs, h, h1⟩
      · exact Or.inl (List.mem_cons.mpr (Or.inr h1))
    · rw [if_neg h] at hy
      rcases List.mem_cons.mp hy with h1 | h1
      · exact Or.inl (by simp [h1])
      · rcases ih h1 with h2 | ⟨z, hz, hpz, hyz⟩
        · exact Or.inl (List.mem_cons.mpr (Or.inr h2))
        · exact Or.inr ⟨z, List.mem_cons_of_mem x hz, hpz, hyz⟩

/-! ### Success-path elimination for the purchase -/

theorem buyTokens_ok_elim {db : List User} {buyerId sellerId tokenId newId : Nat}
    {amount : ℚ} {o : BuyOk} {db' : List User}
    (h : buyTokens db buyerId sellerId tokenId amount newId = (.ok o, db')) :
    ∃ buyer seller token,
      findUser db buyerId = some buyer ∧
      findUser db sellerId = some seller ∧
      seller.temporaryTokens.find? (fun t => t.id == tokenId) = some token ∧
      ¬ amount ≤ 0 ∧
      ¬ buyer.amount < amount ∧
      ¬ (⌊amount / token.pricePerToken⌋ : ℤ) ≤ 0 ∧
      ¬ token.tokensRemaining < ⌊amount / token.pricePerToken⌋ ∧
      (o, db') = applyPurchase db buyerId sellerId tokenId newId buyer seller token
        ⌊amount / token.pricePerToken⌋ := by
  simp only [buyTokens] at h
  split at h
  · simp at h
  next hamount =>
    split at h
    · simp at h
    next buyer hbuyer =>
      split at h
      · simp at h
      next hbal =>
        split at h
        · simp at h
        next seller hseller =>
          split at h
          · simp at h
          next token htoken =>
            split at h
            · simp at h
            next hfloor =>
              split at h
              · simp at h
              next hsupply =>
                refine ⟨buyer, seller, token, hbuyer, hseller, htoken,
                  hamount, hbal, hfloor, hsupply, ?_⟩
                rw [Prod.mk.injEq] at h
                obtain ⟨h1, h2⟩ := h
                rw [Except.ok.injEq] at h1
                rw [Prod.ext_iff]
                exact ⟨h1.symm, h2.symm⟩

theorem findUser_update_update_first {db : List User} {buyerId sellerId : Nat}
    {B S v : User} (hv : findUser db buyerId = some v)
    (hBid : B.id = buyerId) (hSid : S.id = sellerId) (hne : buyerId ≠ sellerId) :
    findUser (updateUser (updateUser db buyerId B) sellerId S) buyerId = some B := by
  rw [findUser_updateUser_other hSid (Ne.symm hne)]
  exact findUser_updateUser_self hv hBid

theorem findUser_update_update_second {db : List User} {buyerId sellerId : Nat}
    {B S v : User} (hv : findUser db sellerId = some v)
    (hBid : B.id = buyerId) (hSid : S.id = sellerId) (hne : buyerId ≠ sellerId) :
    findUser (updateUser (updateUser db buyerId B) sellerId S) sellerId = some S := by
  have h1 : findUser (updateUser db buyerId B) sellerId = some v :=
    (findUser_updateUser_other hBid hne).trans hv
  exact findUser_updateUser_self h1 hSid

/-- The buyer document stored by a completed purchase: balance debited by
`n * price`, bundles merged (same name and seller) or appended. -/
theorem applyPurchase_buyer_after {db : List User} {buyerId sellerId tokenId newId : Nat}
    {buyer seller : User} {token : TempToken} {n : Int}
    (hb : findUser db buyerId = some buyer) (hs : findUser db sellerId = some seller)
    (hne : buyerId ≠ sellerId) :
    findUser (applyPurchase db buyerId sellerId tokenId newId buyer seller token n).2 buyerId
      = some { buyer with
          amount := buyer.amount - (n : ℚ) * token.pricePerToken,
          temporaryTokens :=
            match buyer.temporaryTokens.find?
                (fun t => t.name == token.name && t.sellerId == sellerId) with
            | some _ =>
              updateFirst (fun t => t.name == token.name && t.sellerId == sellerId)
                (fun t => { t with tokensRemaining := t.tokensRemaining + n })
                buyer.temporaryTokens
            | none =>
              buyer.temporaryTokens ++
                [{ id := newId, name := token.name, apiKey := token.apiKey,
                   apiKeyName := none, tokensRemaining := n,
                   expiresAt := token.expiresAt, pricePerToken := token.pricePerToken,
                   sellerId := sellerId, originalApiKeyId := token.originalApiKeyId }] } := by
  have hsid : seller.id = sellerId := findUser_some_id hs
  have hbid : buyer.id = buyerId := findUser_some_id hb
  cases hfind : buyer.temporaryTokens.find?
      (fun t => t.name == token.name && t.sellerId == sellerId) with
  | none =>
    simp only [applyPurchase, hfind]
    refine findUser_update_update_first hb hbid ?_ hne
    split <;> exact hsid
  | some old =>
    simp only [applyPurchase, hfind]
    refine findUser_update_update_first hb hbid ?_ hne
    split <;> exact hsid

/-- The seller document stored by a completed purchase: balance credited by
`n * price`, the sold bundle decremented, and pruned when depleted. -/
theorem applyPurchase_seller_after {db : List User} {buyerId sellerId tokenId newId : Nat}
    {buyer seller : User} {token : TempToken} {n : Int}
    (hb : findUser db buyerId = some buyer) (hs : findUser db sellerId = some seller)
    (hne : buyerId ≠ sellerId) :
    findUser (applyPurchase db buyerId sellerId tokenId newId buyer seller token n).2 sellerId
      = some { seller with
          amount := seller.amount + (n : ℚ) * token.pricePerToken,
          temporaryTokens :=
            if token.tokensRemaining - n ≤ 0 then
              (updateFirst (fun t => t.id == tokenId)
                (fun t => { t with tokensRemaining := token.tokensRemaining - n })
                seller.temporaryTokens).filter (fun t => t.id != tokenId)
            else
              updateFirst (fun t => t.id == tokenId)
                (fun t => { t with tokensRemaining := token.tokensRemaining - n })
                seller.temporaryTokens } := by
  have hsid : seller.id = sellerId := findUser_some_id hs
  have hbid : buyer.id = buyerId := findUser_some_id hb
  simp only [applyPurchase]
  refine Eq.trans (findUser_update_update_second hs hbid ?_ hne) ?_
  · split <;> exact hsid
  · split
    next hdep => simp [if_pos hdep]
    next hdep => simp [if_neg hdep]

/-- C1: for every purchase that succeeds with requested `amount` on a
bundle priced `pricePerToken`, the tokens transferred equal
floor(amount / pricePerToken), the amount actually charged equals that
token count times pricePerToken (hence actualSpend ≤ amount), the buyer's
balance decreases by exactly actualSpend, and the seller's balance
increases by exactly actualSpend. -/
theorem purchase_balance_transfer {db : List User}
    {buyerId sellerId tokenId newId : Nat} {amount : ℚ} {o : BuyOk}
    {db' : List User}
    (h : buyTokens db buyerId sellerId tokenId amount newId = (.ok o, db'))
    (hne : buyerId ≠ sellerId) :
    ∃ buyer seller token,
      findUser db buyerId = some buyer ∧
      findUser db sellerId = some seller ∧
      seller.temporaryTokens.find? (fun t => t.id == tokenId) = some token ∧
      o.tokensReceived = ⌊amount / token.pricePerToken⌋ ∧
      o.amountSpent = (o.tokensReceived : ℚ) * token.pricePerToken ∧
      o.amountSpent ≤ amount ∧
      (∃ buyer2, findUser db' buyerId = some buyer2 ∧
        buyer2.amount = buyer.amount - o.amountSpent) ∧
      (∃ seller2, findUser db' sellerId = some seller2 ∧
        seller2.amount = seller.amount + o.amountSpent) := by
  obtain ⟨buyer, seller, token, hb, hs, ht, hamt, hbal, hfl, hsup, heq⟩ :=
    buyTokens_ok_elim h
  have ho : o = (applyPurchase db buyerId sellerId tokenId newId buyer seller token
      ⌊amount / token.pricePerToken⌋).1 := by rw [← heq]
  have hdb : db' = (applyPurchase db buyerId sellerId tokenId newId buyer seller token
      ⌊amount / token.pricePerToken⌋).2 := by rw [← heq]
  have hrecv : o.tokensReceived = ⌊amount / token.pricePerToken⌋ := by
    rw [ho]
    simp [applyPurchase]
  have hspent : o.amountSpent =
      ((⌊amount / token.pricePerToken⌋ : ℤ) : ℚ) * token.pricePerToken := by
    rw [ho]
    simp [applyPurchase]
  have hfl1 : (1 : ℤ) ≤ ⌊amount / token.pricePerToken⌋ := by omega
  have hratio : (1 : ℚ) ≤ amount / token.pricePerToken := by
    exact_mod_cast Int.le_floor.mp hfl1
  have hamt2 : 0 < amount := lt_of_not_le hamt
  have hppos : 0 < token.pricePerToken := by
    rcases div_pos_iff.mp (lt_of_lt_of_le zero_lt_one hratio) with ⟨_, hp⟩ | ⟨ha, _⟩
    · exact hp
    · linarith
  have hspend_le : o.amountSpent ≤ amount := by
    rw [hspent]
    calc ((⌊amount / token.pricePerToken⌋ : ℤ) : ℚ) * token.pricePerToken
        ≤ (amount / token.pricePerToken) * token.pricePerToken :=
          mul_le_mul_of_nonneg_right (Int.floor_le _) (le_of_lt hppos)
      _ = amount := div_mul_cancel₀ _ (ne_of_gt hppos)
  refine ⟨buyer, seller, token, hb, hs, ht, hrecv, by rw [hspent, hrecv], hspend_le,
    ?_, ?_⟩
  · refine ⟨_, by rw [hdb]; exact applyPurchase_buyer_after hb hs hne, ?_⟩
    rw [hspent]
  · refine ⟨_, by rw [hdb]; exact applyPurchase_seller_after hb hs hne, ?_⟩
    rw [hspent]

/-! ### Concrete witness data: a buyer with balance 20 purchasing from a
seller bundle of 100 tokens at price 1/2 with requested spend 5 -/

def wSellerTok : TempToken :=
  { id := 10, name := "gpt-bundle", apiKey := "enc", apiKeyName := none,
    tokensRemaining := 100, expiresAt := 0, pricePerToken := (1 : ℚ)/2,
    sellerId := 2, originalApiKeyId := 5 }

def wSeller : User :=
  { id := 2, amount := 0,
    api_keys := [{ id := 5, name := "gpt-4-key", key := "k", available := 1000 }],
    temporaryTokens := [wSellerTok] }

def wBuyer : User := { id := 1, amount := 20, api_keys := [], temporaryTokens := [] }

def wDb : List User := [wBuyer, wSeller]

def wBuyOk : BuyOk :=
  { tokensReceived := 10, amountSpent := 5, remainingBalance := 15,
    purchasedToken :=
      { id := 99, name := "gpt-bundle", tokensRemaining := 10, expiresAt := 0 } }

def wBoughtTok : TempToken :=
  { id := 99, name := "gpt-bundle", apiKey := "enc", apiKeyName := none,
    tokensRemaining := 10, expiresAt := 0, pricePerToken := (1 : ℚ)/2,
    sellerId := 2, originalApiKeyId := 5 }

def wDb2 : List User :=
  [{ id := 1, amount := 15, api_keys := [], temporaryTokens := [wBoughtTok] },
   { id := 2, amount := 5,
     api_keys := [{ id := 5, name := "gpt-4-key", key := "k", available := 1000 }],
     temporaryTokens := [{ wSellerTok with tokensRemaining := 90 }] }]

theorem wBuy_eval : buyTokens wDb 1 2 10 (5 : ℚ) 99 = (.ok wBuyOk, wDb2) := by
  have h1 : findUser wDb 1 = some wBuyer := by
    simp [findUser, wDb, wBuyer, wSeller, List.find?]
  have h2 : findUser wDb 2 = some wSeller := by
    simp [findUser, wDb, wBuyer, wSeller, List.find?]
  have h3 : wSeller.temporaryTokens.find? (fun t => t.id == 10) = some wSellerTok := by
    simp [wSeller, wSellerTok, List.find?]
  have hfl : (⌊(5 : ℚ) / wSellerTok.pricePerToken⌋ : ℤ) = 10 := by
    simp only [wSellerTok]
    norm_num
  simp only [buyTokens, h1, h2, h3, hfl]
  norm_num [applyPurchase, wBuyer, wSeller, wSellerTok, updateFirst, List.find?,
    wBuyOk, wDb2, wDb, wBoughtTok, updateUser]

/-- Witness for C1: the concrete purchase of `wDb` (spend 5 at price 1/2)
transfers 10 tokens for 5 currency units, moving the balances 20 → 15 and
0 → 5. -/
theorem purchase_balance_transfer_witness :
    ∃ buyer seller token,
      findUser wDb 1 = some buyer ∧
      findUser wDb 2 = some seller ∧
      seller.temporaryTokens.find? (fun t => t.id == 10) = some token ∧
      wBuyOk.tokensReceived = ⌊(5 : ℚ) / token.pricePerToken⌋ ∧
      wBuyOk.amountSpent = (wBuyOk.tokensReceived : ℚ) * token.pricePerToken ∧
      wBuyOk.amountSpent ≤ 5 ∧
      (∃ buyer2, findUser wDb2 1 = some buyer2 ∧
        buyer2.amount = buyer.amount - wBuyOk.amountSpent) ∧
      (∃ seller2, findUser wDb2 2 = some seller2 ∧
        seller2.amount = seller.amount + wBuyOk.amountSpent) :=
  purchase_balance_transfer wBuy_eval (by decide)

/-- C4: purchase never drives the seller bundle's `tokensRemaining` below
0 -- it fails `InsufficientSupply` whenever the computed transfer exceeds
the bundle's remaining tokens -- and whenever the decrement reaches
exactly 0 the bundle is removed from the seller's collection in the same
mutation, so it is absent from the seller's listing immediately after. -/
theorem purchase_never_oversells :
    (∀ (db : List User) (buyerId sellerId tokenId newId : Nat) (amount : ℚ)
       (buyer seller : User) (token : TempToken),
      findUser db buyerId = some buyer →
      findUser db sellerId = some seller →
      seller.temporaryTokens.find? (fun t => t.id == tokenId) = some token →
      ¬ amount ≤ 0 → ¬ buyer.amount < amount →
      ¬ (⌊amount / token.pricePerToken⌋ : ℤ) ≤ 0 →
      token.tokensRemaining < ⌊amount / token.pricePerToken⌋ →
      buyTokens db buyerId sellerId tokenId amount newId =
        (.error .insufficientSupply, db)) ∧
    (∀ (db : List User) (buyerId sellerId tokenId newId : Nat) (amount : ℚ)
       (o : BuyOk) (db' : List User) (seller : User) (token : TempToken),
      buyTokens db buyerId sellerId tokenId amount newId = (.ok o, db') →
      buyerId ≠ sellerId →
      findUser db sellerId = some seller →
      seller.temporaryTokens.find? (fun t => t.id == tokenId) = some token →
      ∃ seller2, findUser db' sellerId = some seller2 ∧
        0 ≤ token.tokensRemaining - o.tokensReceived ∧
        ((∀ t ∈ seller.temporaryTokens, 0 ≤ t.tokensRemaining) →
          ∀ t ∈ seller2.temporaryTokens, 0 ≤ t.tokensRemaining) ∧
        (token.tokensRemaining - o.tokensReceived = 0 →
          ∀ t ∈ seller2.temporaryTokens, ¬ t.id = tokenId)) := by
  constructor
  · intro db buyerId sellerId tokenId newId amount buyer seller token
      hb hs ht hamt hbal hfl hsup
    simp only [buyTokens, hb, hs, ht, if_neg hamt, if_neg hbal, if_neg hfl,
      if_pos hsup]
  · intro db buyerId sellerId tokenId newId amount o db' seller token
      h hne hs ht
    obtain ⟨buyer0, seller0, token0, hb0, hs0, ht0, hamt, hbal, hfl, hsup, heq⟩ :=
      buyTokens_ok_elim h
    have hsel : seller0 = seller := by
      rw [hs0] at hs
      exact (Option.some.injEq _ _).mp hs
    subst hsel
    have htok : token0 = token := by
      rw [ht0] at ht
      exact (Option.some.injEq _ _).mp ht
    subst htok
    have ho : o = (applyPurchase db buyerId sellerId tokenId newId buyer0 seller0 token0
        ⌊amount / token0.pricePerToken⌋).1 := by rw [← heq]
    have hdb : db' = (applyPurchase db buyerId sellerId tokenId newId buyer0 seller0 token0
        ⌊amount / token0.pricePerToken⌋).2 := by rw [← heq]
    have hrecv : o.tokensReceived = ⌊amount / token0.pricePerToken⌋ := by
      rw [ho]
      simp [applyPurchase]
    refine ⟨_, by rw [hdb]; exact applyPurchase_seller_after hb0 hs hne, ?_, ?_, ?_⟩
    · omega
    · intro hinv t htin
      simp only at htin
      rcases le_or_lt (token0.tokensRemaining - ⌊amount / token0.pricePerToken⌋) 0 with hc | hc
      · rw [if_pos hc] at htin
        have htin2 := List.mem_filter.mp htin
        rcases mem_updateFirst htin2.1 with hmem | ⟨x, hx, hpx, hfx⟩
        · exact hinv t hmem
        · rw [hfx]
          simp only []
          omega
      · rw [if_neg (not_le.mpr hc)] at htin
        rcases mem_updateFirst htin with hmem | ⟨x, hx, hpx, hfx⟩
        · exact hinv t hmem
        · rw [hfx]
          simp only []
          omega
    · intro hzero t htin
      simp only at htin
      rw [if_pos (by omega : token0.tokensRemaining - ⌊amount / token0.pricePerToken⌋ ≤ 0)] at htin
      have htin2 := List.mem_filter.mp htin
      simpa using htin2.2

def wTok3 : TempToken :=
  { id := 10, name := "gpt-bundle", apiKey := "enc", apiKeyName := none,
    tokensRemaining := 3, expiresAt := 0, pricePerToken := (1 : ℚ)/2,
    sellerId := 2, originalApiKeyId := 5 }

def wSeller3 : User :=
  { id := 2, amount := 0,
    api_keys := [{ id := 5, name := "gpt-4-key", key := "k", available := 1000 }],
    temporaryTokens := [wTok3] }

def wDb3 : List User := [wBuyer, wSeller3]

/-- Witness for C4: a bundle with 3 remaining tokens rejects a 10-token
purchase with `InsufficientSupply` and is untouched; the successful
concrete purchase keeps the decremented bundle non-negative. -/
theorem purchase_never_oversells_witness :
    buyTokens wDb3 1 2 10 (5 : ℚ) 99 = (.error .insufficientSupply, wDb3) ∧
    (∃ seller2, findUser wDb2 2 = some seller2 ∧
      0 ≤ wSellerTok.tokensRemaining - wBuyOk.tokensReceived ∧
      ((∀ t ∈ wSeller.temporaryTokens, 0 ≤ t.tokensRemaining) →
        ∀ t ∈ seller2.temporaryTokens, 0 ≤ t.tokensRemaining) ∧
      (wSellerTok.tokensRemaining - wBuyOk.tokensReceived = 0 →
        ∀ t ∈ seller2.temporaryTokens, ¬ t.id = 10)) := by
  constructor
  · refine purchase_never_oversells.1 wDb3 1 2 10 99 5 wBuyer wSeller3 wTok3
      ?_ ?_ ?_ ?_ ?_ ?_ ?_
    · simp [findUser, wDb3, wBuyer, wSeller3, List.find?]
    · simp [findUser, wDb3, wBuyer, wSeller3, List.find?]
    · simp [wSeller3, wTok3, List.find?]
    · norm_num
    · simp [wBuyer]
      norm_num
    · simp only [wTok3]
      norm_num
    · simp only [wTok3]
      norm_num
  · refine purchase_never_oversells.2 wDb 1 2 10 99 5 wBuyOk wDb2 wSeller wSellerTok
      wBuy_eval (by decide) ?_ ?_
    · simp [findUser, wDb, wBuyer, wSeller, List.find?]
    · simp [wSeller, wSellerTok, List.find?]

/-- Any failing purchase returns the store unchanged: every 4xx branch of
`/buy-tokens` returns before mutating, and a mid-transaction error aborts
the transaction. -/
theorem buyTokens_error_unchanged {db : List User}
    {buyerId sellerId tokenId newId : Nat} {amount : ℚ} {e : BuyError}
    {db' : List User}
    (h : buyTokens db buyerId sellerId tokenId amount newId = (.error e, db')) :
    db' = db := by
  simp only [buyTokens] at h
  split at h
  · exact ((Prod.mk.injEq _ _ _ _).mp h).2.symm
  · split at h
    · exact ((Prod.mk.injEq _ _ _ _).mp h).2.symm
    · split at h
      · exact ((Prod.mk.injEq _ _ _ _).mp h).2.symm
      · split at h
        · exact ((Prod.mk.injEq _ _ _ _).mp h).2.symm
        · split at h
          · exact ((Prod.mk.injEq _ _ _ _).mp h).2.symm
          · split at h
            · exact ((Prod.mk.injEq _ _ _ _).mp h).2.symm
            · split at h
              · exact ((Prod.mk.injEq _ _ _ _).mp h).2.symm
              · simp at h

/-- C5: every failing purchase leaves all state unchanged; the purchase
fails `InvalidAmount` when floor(requestedSpend / pricePerToken) ≤ 0 and
`InsufficientSupply` when the computed token count exceeds the remaining
supply; and repeating a purchase whose second run fails leaves the state
produced by the first run intact. -/
theorem purchase_failure_atomicity :
    (∀ (db : List User) (buyerId sellerId tokenId newId : Nat) (amount : ℚ)
       (e : BuyError) (db' : List User),
      buyTokens db buyerId sellerId tokenId amount newId = (.error e, db') →
      db' = db) ∧
    (∀ (db : List User) (buyerId sellerId tokenId newId : Nat) (amount : ℚ)
       (buyer seller : User) (token : TempToken),
      findUser db buyerId = some buyer →
      findUser db sellerId = some seller →
      seller.temporaryTokens.find? (fun t => t.id == tokenId) = some token →
      ¬ amount ≤ 0 → ¬ buyer.amount < amount →
      (⌊amount / token.pricePerToken⌋ : ℤ) ≤ 0 →
      buyTokens db buyerId sellerId tokenId amount newId =
        (.error .amountTooSmall, db)) ∧
    (∀ (db : List User) (buyerId sellerId tokenId newId : Nat) (amount : ℚ)
       (buyer seller : User) (token : TempToken),
      findUser db buyerId = some buyer →
      findUser db sellerId = some seller →
      seller.temporaryTokens.find? (fun t => t.id == tokenId) = some token →
      ¬ amount ≤ 0 → ¬ buyer.amount < amount →
      ¬ (⌊amount / token.pricePerToken⌋ : ℤ) ≤ 0 →
      token.tokensRemaining < ⌊amount / token.pricePerToken⌋ →
      buyTokens db buyerId sellerId tokenId amount newId =
        (.error .insufficientSupply, db)) ∧
    (∀ (db₀ db₁ db₂ : List User) (buyerId sellerId tokenId₁ tokenId₂ : Nat)
       (newId₁ newId₂ : Nat) (amount₁ amount₂ : ℚ) (o₁ : BuyOk) (e : BuyError),
      buyTokens db₀ buyerId sellerId tokenId₁ amount₁ newId₁ = (.ok o₁, db₁) →
      buyTokens db₁ buyerId sellerId tokenId₂ amount₂ newId₂ = (.error e, db₂) →
      db₂ = db₁) := by
  refine ⟨?_, ?_, ?_, ?_⟩
  · intro db buyerId sellerId tokenId newId amount e db' h
    exact buyTokens_error_unchanged h
  · intro db buyerId sellerId tokenId newId amount buyer seller token
      hb hs ht hamt hbal hfl
    simp only [buyTokens, hb, hs, ht, if_neg hamt, if_neg hbal, if_pos hfl]
  · intro db buyerId sellerId tokenId newId amount buyer seller token
      hb hs ht hamt hbal hfl hsup
    simp only [buyTokens, hb, hs, ht, if_neg hamt, if_neg hbal, if_neg hfl,
      if_pos hsup]
  · intro db₀ db₁ db₂ buyerId sellerId tokenId₁ tokenId₂ newId₁ newId₂
      amount₁ amount₂ o₁ e h1 h2
    exact buyTokens_error_unchanged h2

def wTok15 : TempToken :=
  { id := 10, name := "gpt-bundle", apiKey := "enc", apiKeyName := none,
    tokensRemaining := 15, expiresAt := 0, pricePerToken := (1 : ℚ)/2,
    sellerId := 2, originalApiKeyId := 5 }

def wSeller15 : User :=
  { id := 2, amount := 0,
    api_keys := [{ id := 5, name := "gpt-4-key", key := "k", available := 1000 }],
    temporaryTokens := [wTok15] }

def wDb15 : List User := [wBuyer, wSeller15]

def wBuy15Ok : BuyOk :=
  { tokensReceived := 10, amountSpent := 5, remainingBalance := 15,
    purchasedToken :=
      { id := 99, name := "gpt-bundle", tokensRemaining := 10, expiresAt := 0 } }

def wDb15b : List User :=
  [{ id := 1, amount := 15, api_keys := [], temporaryTokens := [wBoughtTok] },
   { id := 2, amount := 5,
     api_keys := [{ id := 5, name := "gpt-4-key", key := "k", available := 1000 }],
     temporaryTokens := [{ wTok15 with tokensRemaining := 5 }] }]

theorem wBuy15_eval : buyTokens wDb15 1 2 10 (5 : ℚ) 99 = (.ok wBuy15Ok, wDb15b) := by
  have h1 : findUser wDb15 1 = some wBuyer := by
    simp [findUser, wDb15, wBuyer, wSeller15, List.find?]
  have h2 : findUser wDb15 2 = some wSeller15 := by
    simp [findUser, wDb15, wBuyer, wSeller15, List.find?]
  have h3 : wSeller15.temporaryTokens.find? (fun t => t.id == 10) = some wTok15 := by
    simp [wSeller15, wTok15, List.find?]
  have hfl : (⌊(5 : ℚ) / wTok15.pricePerToken⌋ : ℤ) = 10 := by
    simp only [wTok15]
    norm_num
  simp only [buyTokens, h1, h2, h3, hfl]
  norm_num [applyPurchase, wBuyer, wSeller15, wTok15, updateFirst, List.find?,
    wBuy15Ok, wDb15b, wDb15, wBoughtTok, updateUser]

theorem wBuy15b_eval :
    buyTokens wDb15b 1 2 10 (5 : ℚ) 98 = (.error .insufficientSupply, wDb15b) := by
  have h1 : findUser wDb15b 1 =
      some { id := 1, amount := 15, api_keys := [], temporaryTokens := [wBoughtTok] } := by
    simp [findUser, wDb15b, List.find?]
  have h2 : findUser wDb15b 2 =
      some { id := 2, amount := 5,
             api_keys := [{ id := 5, name := "gpt-4-key", key := "k", available := 1000 }],
             temporaryTokens := [{ wTok15 with tokensRemaining := 5 }] } := by
    simp [findUser, wDb15b, List.find?]
  have h3 : (([{ wTok15 with tokensRemaining := 5 }] : List TempToken).find?
      (fun t => t.id == 10)) = some { wTok15 with tokensRemaining := 5 } := by
    simp [wTok15, List.find?]
  have hfl : (⌊(5 : ℚ) / ({ wTok15 with tokensRemaining := 5 } : TempToken).pricePerToken⌋ : ℤ) = 10 := by
    simp only [wTok15]
    norm_num
  simp only [buyTokens, h1, h2, h3, hfl]
  norm_num [wTok15]

/-- Witness for C5: the concrete purchase on a 15-token bundle succeeds;
repeating it finds only 5 tokens left, fails `InsufficientSupply`, and
leaves the post-first-purchase state intact. -/
theorem purchase_failure_atomicity_witness :
    buyTokens wDb15 1 2 10 (5 : ℚ) 99 = (.ok wBuy15Ok, wDb15b) ∧
    buyTokens wDb15b 1 2 10 (5 : ℚ) 98 = (.error .insufficientSupply, wDb15b) ∧
    wDb15b = wDb15b :=
  ⟨wBuy15_eval, wBuy15b_eval,
    purchase_failure_atomicity.2.2.2 wDb15 wDb15b wDb15b 1 2 10 10 99 98 5 5
      wBuy15Ok .insufficientSupply wBuy15_eval wBuy15b_eval⟩

/-- C6: two successful purchases by the same buyer from the same seller
against bundles with the same name accumulate into a single buyer-side
bundle whose `tokensRemaining` is the sum of the two transfers; with no
pre-existing buyer bundle for that (name, sellerId) pair, a new bundle is
appended carrying the seller bundle's price, expiry, credential, sellerId
and original-key reference. -/
theorem purchase_merges_buyer_bundles :
    (∀ (db : List User) (buyerId sellerId tokenId newId : Nat) (amount : ℚ)
       (o : BuyOk) (db' : List User) (buyer seller : User) (token : TempToken),
      buyTokens db buyerId sellerId tokenId amount newId = (.ok o, db') →
      buyerId ≠ sellerId →
      findUser db buyerId = some buyer →
      findUser db sellerId = some seller →
      seller.temporaryTokens.find? (fun t => t.id == tokenId) = some token →
      buyer.temporaryTokens.find?
        (fun t => t.name == token.name && t.sellerId == sellerId) = none →
      ∃ buyer2, findUser db' buyerId = some buyer2 ∧
        buyer2.temporaryTokens = buyer.temporaryTokens ++
          [{ id := newId, name := token.name, apiKey := token.apiKey,
             apiKeyName := none, tokensRemaining := o.tokensReceived,
             expiresAt := token.expiresAt, pricePerToken := token.pricePerToken,
             sellerId := sellerId, originalApiKeyId := token.originalApiKeyId }]) ∧
    (∀ (db₀ db₁ db₂ : List User) (buyerId sellerId tokenId₁ tokenId₂ : Nat)
       (newId₁ newId₂ : Nat) (amount₁ amount₂ : ℚ) (o₁ o₂ : BuyOk)
       (buyer₀ seller₀ : User) (token₁ : TempToken) (seller₁ : User)
       (token₂ : TempToken),
      buyTokens db₀ buyerId sellerId tokenId₁ amount₁ newId₁ = (.ok o₁, db₁) →
      buyTokens db₁ buyerId sellerId tokenId₂ amount₂ newId₂ = (.ok o₂, db₂) →
      buyerId ≠ sellerId →
      findUser db₀ buyerId = some buyer₀ →
      findUser db₀ sellerId = some seller₀ →
      seller₀.temporaryTokens.find? (fun t => t.id == tokenId₁) = some token₁ →
      findUser db₁ sellerId = some seller₁ →
      seller₁.temporaryTokens.find? (fun t => t.id == tokenId₂) = some token₂ →
      token₂.name = token₁.name →
      buyer₀.temporaryTokens.filter
        (fun t => t.name == token₁.name && t.sellerId == sellerId) = [] →
      ∃ buyer₂ merged,
        findUser db₂ buyerId = some buyer₂ ∧
        buyer₂.temporaryTokens.filter
          (fun t => t.name == token₁.name && t.sellerId == sellerId) = [merged] ∧
        merged.tokensRemaining = o₁.tokensReceived + o₂.tokensReceived) := by
  have append_case : ∀ (db : List User) (buyerId sellerId tokenId newId : Nat)
      (amount : ℚ) (o : BuyOk) (db' : List User) (buyer seller : User)
      (token : TempToken),
      buyTokens db buyerId sellerId tokenId amount newId = (.ok o, db') →
      buyerId ≠ sellerId →
      findUser db buyerId = some buyer →
      findUser db sellerId = some seller →
      seller.temporaryTokens.find? (fun t => t.id == tokenId) = some token →
      buyer.temporaryTokens.find?
        (fun t => t.name == token.name && t.sellerId == sellerId) = none →
      ∃ buyer2, findUser db' buyerId = some buyer2 ∧
        buyer2.temporaryTokens = buyer.temporaryTokens ++
          [{ id := newId, name := token.name, apiKey := token.apiKey,
             apiKeyName := none, tokensRemaining := o.tokensReceived,
             expiresAt := token.expiresAt, pricePerToken := token.pricePerToken,
             sellerId := sellerId, originalApiKeyId := token.originalApiKeyId }] := by
    intro db buyerId sellerId tokenId newId amount o db' buyer seller token
      h hne hb hs ht hnone
    obtain ⟨buyer0, seller0, token0, hb0, hs0, ht0, hamt, hbal, hfl, hsup, heq⟩ :=
      buyTokens_ok_elim h
    have hbuy : buyer0 = buyer := by
      rw [hb0] at hb
      exact (Option.some.injEq _ _).mp hb
    subst hbuy
    have hsel : seller0 = seller := by
      rw [hs0] at hs
      exact (Option.some.injEq _ _).mp hs
    subst hsel
    have htok : token0 = token := by
      rw [ht0] at ht
      exact (Option.some.injEq _ _).mp ht
    subst htok
    have ho : o = (applyPurchase db buyerId sellerId tokenId newId buyer0 seller0 token0
        ⌊amount / token0.pricePerToken⌋).1 := by rw [← heq]
    have hdb : db' = (applyPurchase db buyerId sellerId tokenId newId buyer0 seller0 token0
        ⌊amount / token0.pricePerToken⌋).2 := by rw [← heq]
    have hrecv : o.tokensReceived = ⌊amount / token0.pricePerToken⌋ := by
      rw [ho]
      simp [applyPurchase]
    have hafter := @applyPurchase_buyer_after db buyerId sellerId tokenId newId
      buyer0 seller0 token0 ⌊amount / token0.pricePerToken⌋ hb0 hs0 hne
    rw [hnone] at hafter
    refine ⟨_, by rw [hdb]; exact hafter, ?_⟩
    simp only [hrecv]
  refine ⟨append_case, ?_⟩
  intro db₀ db₁ db₂ buyerId sellerId tokenId₁ tokenId₂ newId₁ newId₂
    amount₁ amount₂ o₁ o₂ buyer₀ seller₀ token₁ seller₁ token₂
    h1 h2 hne hb₀ hs₀ ht₁ hs₁ ht₂ hname hfilter
  have hnone₁ : buyer₀.temporaryTokens.find?
      (fun t => t.name == token₁.name && t.sellerId == sellerId) = none := by
    rw [List.find?_eq_none]
    intro x hx
    simpa using List.filter_eq_nil_iff.mp hfilter x hx
  obtain ⟨B₁, hB₁, hB₁toks⟩ := append_case db₀ buyerId sellerId tokenId₁ newId₁
    amount₁ o₁ db₁ buyer₀ seller₀ token₁ h1 hne hb₀ hs₀ ht₁ hnone₁
  -- second purchase
  obtain ⟨buyer₁, seller₁x, token₂x, hb₁, hs₁x, ht₂x, hamt₂, hbal₂, hfl₂, hsup₂, heq₂⟩ :=
    buyTokens_ok_elim h2
  have hb₁e : buyer₁ = B₁ := by
    rw [hb₁] at hB₁
    exact (Option.some.injEq _ _).mp hB₁
  subst hb₁e
  have hs₁e : seller₁x = seller₁ := by
    rw [hs₁x] at hs₁
    exact (Option.some.injEq _ _).mp hs₁
  subst hs₁e
  have ht₂e : token₂x = token₂ := by
    rw [ht₂x] at ht₂
    exact (Option.some.injEq _ _).mp ht₂
  subst ht₂e
  have hdb₂ : db₂ = (applyPurchase db₁ buyerId sellerId tokenId₂ newId₂ buyer₁ seller₁x
      token₂x ⌊amount₂ / token₂x.pricePerToken⌋).2 := by rw [← heq₂]
  have hrecv₂ : o₂.tokensReceived = ⌊amount₂ / token₂x.pricePerToken⌋ := by
    have ho₂ : o₂ = (applyPurchase db₁ buyerId sellerId tokenId₂ newId₂ buyer₁ seller₁x
        token₂x ⌊amount₂ / token₂x.pricePerToken⌋).1 := by rw [← heq₂]
    rw [ho₂]
    simp [applyPurchase]
  have hafter₂ := @applyPurchase_buyer_after db₁ buyerId sellerId tokenId₂ newId₂
    buyer₁ seller₁x token₂x ⌊amount₂ / token₂x.pricePerToken⌋ hb₁ hs₁x hne
  rw [hname] at hafter₂
  set nt : TempToken :=
    { id := newId₁, name := token₁.name, apiKey := token₁.apiKey,
      apiKeyName := none, tokensRemaining := o₁.tokensReceived,
      expiresAt := token₁.expiresAt, pricePerToken := token₁.pricePerToken,
      sellerId := sellerId, originalApiKeyId := token₁.originalApiKeyId } with hnt
  have hpnt : (nt.name == token₁.name && nt.sellerId == sellerId) = true := by
    rw [hnt]
    simp
  have hallneg : ∀ a ∈ buyer₀.temporaryTokens,
      (a.name == token₁.name && a.sellerId == sellerId) = false := by
    intro a ha
    have hfa := List.filter_eq_nil_iff.mp hfilter a ha
    simpa using hfa
  have hfind₂ : buyer₁.temporaryTokens.find?
      (fun t => t.name == token₁.name && t.sellerId == sellerId) = some nt := by
    rw [hB₁toks, List.find?_append,
      List.find?_eq_none.mpr (fun x hx => by simp [hallneg x hx])]
    simp [List.find?, hpnt]
  simp only [hfind₂] at hafter₂
  have hupd : updateFirst
      (fun t : TempToken => t.name == token₁.name && t.sellerId == sellerId)
      (fun t => { t with tokensRemaining :=
        t.tokensRemaining + ⌊amount₂ / token₂x.pricePerToken⌋ })
      buyer₁.temporaryTokens
      = buyer₀.temporaryTokens ++
        [{ nt with tokensRemaining :=
            nt.tokensRemaining + ⌊amount₂ / token₂x.pricePerToken⌋ }] := by
    rw [hB₁toks, updateFirst_append_of_none hallneg]
    simp [updateFirst, hpnt]
  rw [hupd] at hafter₂
  have hpmerged : (({ nt with tokensRemaining :=
      nt.tokensRemaining + ⌊amount₂ / token₂x.pricePerToken⌋ } : TempToken).name
        == token₁.name &&
      ({ nt with tokensRemaining :=
      nt.tokensRemaining + ⌊amount₂ / token₂x.pricePerToken⌋ } : TempToken).sellerId
        == sellerId) = true := by
    rw [hnt]
    simp
  refine ⟨_, { nt with tokensRemaining :=
      nt.tokensRemaining + ⌊amount₂ / token₂x.pricePerToken⌋ },
    by rw [hdb₂]; exact hafter₂, ?_, ?_⟩
  · simp only [List.filter_append, hfilter, List.nil_append]
    simp [List.filter, hpmerged]
  · rw [hrecv₂, hnt]

def wBuy2Ok : BuyOk :=
  { tokensReceived := 8, amountSpent := 4, remainingBalance := 11,
    purchasedToken :=
      { id := 99, name := "gpt-bundle", tokensRemaining := 18, expiresAt := 0 } }

def wDb2b : List User :=
  [{ id := 1, amount := 11, api_keys := [],
     temporaryTokens := [{ wBoughtTok with tokensRemaining := 18 }] },
   { id := 2, amount := 9,
     api_keys := [{ id := 5, name := "gpt-4-key", key := "k", available := 1000 }],
     temporaryTokens := [{ wSellerTok with tokensRemaining := 82 }] }]

theorem wBuy2_eval : buyTokens wDb2 1 2 10 (4 : ℚ) 98 = (.ok wBuy2Ok, wDb2b) := by
  have h1 : findUser wDb2 1 =
      some { id := 1, amount := 15, api_keys := [], temporaryTokens := [wBoughtTok] } := by
    simp [findUser, wDb2, List.find?]
  have h2 : findUser wDb2 2 =
      some { id := 2, amount := 5,
             api_keys := [{ id := 5, name := "gpt-4-key", key := "k", available := 1000 }],
             temporaryTokens := [{ wSellerTok with tokensRemaining := 90 }] } := by
    simp [findUser, wDb2, List.find?]
  have h3 : (([{ wSellerTok with tokensRemaining := 90 }] : List TempToken).find?
      (fun t => t.id == 10)) = some { wSellerTok with tokensRemaining := 90 } := by
    simp [wSellerTok, List.find?]
  have hfl : (⌊(4 : ℚ) / ({ wSellerTok with tokensRemaining := 90 } : TempToken).pricePerToken⌋ : ℤ) = 8 := by
    simp only [wSellerTok]
    norm_num
  simp only [buyTokens, h1, h2, h3, hfl]
  norm_num [applyPurchase, wSellerTok, wBoughtTok, updateFirst, List.find?,
    wBuy2Ok, wDb2b, wDb2, updateUser]

/-- Witness for C6: buying twice (spend 5 then spend 4) from the same
100-token bundle leaves the buyer with exactly one "gpt-bundle" bundle
from seller 2 holding 10 + 8 = 18 tokens. -/
theorem purchase_merges_buyer_bundles_witness :
    ∃ buyer₂ merged,
      findUser wDb2b 1 = some buyer₂ ∧
      buyer₂.temporaryTokens.filter
        (fun t => t.name == wSellerTok.name && t.sellerId == 2) = [merged] ∧
      merged.tokensRemaining = wBuyOk.tokensReceived + wBuy2Ok.tokensReceived :=
  purchase_merges_buyer_bundles.2 wDb wDb2 wDb2b 1 2 10 10 99 98 5 4
    wBuyOk wBuy2Ok wBuyer wSeller wSellerTok
    { id := 2, amount := 5,
      api_keys := [{ id := 5, name := "gpt-4-key", key := "k", available := 1000 }],
      temporaryTokens := [{ wSellerTok with tokensRemaining := 90 }] }
    { wSellerTok with tokensRemaining := 90 }
    wBuy_eval wBuy2_eval (by decide)
    (by simp [findUser, wDb, wBuyer, wSeller, List.find?])
    (by simp [findUser, wDb, wBuyer, wSeller, List.find?])
    (by simp [wSeller, wSellerTok, List.find?])
    (by simp [findUser, wDb2, List.find?])
    (by simp [wSellerTok, List.find?])
    rfl
    (by simp [wBuyer])

/-! ### Chat-side lemmas -/

theorem resolveTempKey_ok_elim {db : List User} {user : User} {keyId : Nat}
    {r : TempResolved} (h : resolveTempKey db user keyId = .ok r) :
    user.temporaryTokens.find? (fun k => k.id == keyId) = some r.tempKey ∧
    ¬ r.tempKey.tokensRemaining ≤ 0 ∧
    findUser db r.tempKey.sellerId = some r.seller ∧
    r.seller.api_keys.find?
      (fun k => k.id == r.tempKey.originalApiKeyId) = some r.originalApiKey ∧
    getProviderFromModel (r.tempKey.apiKeyName.getD r.originalApiKey.name)
      = some r.provider := by
  simp only [resolveTempKey] at h
  split at h
  · simp at h
  next tempKey hfind =>
    split at h
    · simp at h
    next hpos =>
      split at h
      · simp at h
      next seller hseller =>
        split at h
        · simp at h
        next key hkey =>
          split at h
          · simp at h
          next p hprov =>
            rw [Except.ok.injEq] at h
            subst h
            exact ⟨hfind, hpos, hseller, hkey, hprov⟩

/-- The success of `resolveTempKey` depends only on the bundle being
present, non-exhausted, and its seller / original key / provider being
resolvable; `expiresAt` is never consulted. -/
theorem resolveTempKey_ignores_expiry
    (db : List User) (user : User) (keyId : Nat) (tempKey : TempToken)
    (seller : User) (originalApiKey : ApiKey) (p : Provider)
    (hfind : user.temporaryTokens.find? (fun k => k.id == keyId) = some tempKey)
    (hpos : 0 < tempKey.tokensRemaining)
    (hseller : findUser db tempKey.sellerId = some seller)
    (hkey : seller.api_keys.find?
      (fun k => k.id == tempKey.originalApiKeyId) = some originalApiKey)
    (hprov : getProviderFromModel
      (tempKey.apiKeyName.getD originalApiKey.name) = some p) :
    resolveTempKey db user keyId =
      .ok { tempKey := tempKey, seller := seller,
            originalApiKey := originalApiKey, provider := p } := by
  simp only [resolveTempKey, hfind, hseller, hkey, hprov,
    if_neg (not_le.mpr hpos)]

def wKey5 : ApiKey := { id := 5, name := "gpt-4-key", key := "k", available := 1000 }

def wUser1 : User :=
  { id := 1, amount := 15, api_keys := [], temporaryTokens := [wBoughtTok] }

def wSeller2 : User :=
  { id := 2, amount := 5, api_keys := [wKey5],
    temporaryTokens := [{ wSellerTok with tokensRemaining := 90 }] }

def wResolved : TempResolved :=
  { tempKey := wBoughtTok, seller := wSeller2, originalApiKey := wKey5,
    provider := .openai }

theorem wDb2_eq : wDb2 = [wUser1, wSeller2] := by
  simp [wDb2, wUser1, wSeller2, wKey5]

theorem wResolve_eval : resolveTempKey wDb2 wUser1 99 = .ok wResolved := by
  have hfind : wUser1.temporaryTokens.find? (fun k => k.id == 99)
      = some wBoughtTok := by
    simp [wUser1, wBoughtTok, List.find?]
  have hseller : findUser wDb2 wBoughtTok.sellerId = some wSeller2 := by
    rw [wDb2_eq]
    simp [findUser, wUser1, wSeller2, wBoughtTok, List.find?]
  have hkey : wSeller2.api_keys.find?
      (fun k => k.id == wBoughtTok.originalApiKeyId) = some wKey5 := by
    simp [wSeller2, wKey5, wBoughtTok, List.find?]
  have hprov : getProviderFromModel (wBoughtTok.apiKeyName.getD wKey5.name)
      = some Provider.openai := by
    simp only [wBoughtTok, wKey5, Option.getD]
    decide
  have hpos : ¬ wBoughtTok.tokensRemaining ≤ 0 := by
    simp [wBoughtTok]
  simp only [resolveTempKey, hfind, hseller, hkey, hprov, if_neg hpos, wResolved]

def wRespSmall : ProviderResponse :=
  { text := "ok", usage := { promptTokens := 2, completionTokens := 2, totalTokens := 4 } }

def wDb2c : List User :=
  [{ id := 1, amount := 15, api_keys := [],
     temporaryTokens := [{ wBoughtTok with tokensRemaining := 6 }] },
   wSeller2]

theorem wChat_eval : chat wDb2 1 "hi" .temp 99 "gpt-4" wRespSmall =
    (.ok { response := "ok", usage := wRespSmall.usage, remainingTokens := 6 },
     wDb2c) := by
  have hu : findUser wDb2 1 = some wUser1 := by
    rw [wDb2_eq]
    simp [findUser, wUser1, wSeller2, List.find?]
  have hlt : ¬ wResolved.tempKey.tokensRemaining < ((wRespSmall.usage.totalTokens : Nat) : Int) := by
    simp [wResolved, wBoughtTok, wRespSmall]
  simp only [chat, hu, wResolve_eval]
  rw [if_neg (by decide)]
  rw [if_neg hlt]
  rw [if_neg (by simp [wResolved, wBoughtTok, wRespSmall] : ¬ wResolved.tempKey.tokensRemaining - ((wRespSmall.usage.totalTokens : Nat) : Int) ≤ 0)]
  rw [wDb2_eq]
  simp [updateUser, updateFirst, wUser1, wSeller2, wBoughtTok, wRespSmall,
    wResolved, wDb2c, wKey5, List.find?]

/-- C7 counterexample: a purchased bundle whose `expiresAt` (0) is earlier
than the current time (100) and which still has tokens is NOT rejected:
resolution succeeds and the chat request completes, because `/chat` never
consults `expiresAt`. -/
theorem chat_expired_counterexample :
    wBoughtTok.expiresAt < 100 ∧
    0 < wBoughtTok.tokensRemaining ∧
    resolveTempKey wDb2 wUser1 99 = .ok wResolved ∧
    chat wDb2 1 "hi" .temp 99 "gpt-4" wRespSmall =
      (.ok { response := "ok", usage := wRespSmall.usage, remainingTokens := 6 },
       wDb2c) :=
  ⟨by decide, by decide, wResolve_eval, wChat_eval⟩

/-- C7 (amended): the chat route never fails with an Expired error -- it
does not consult `expiresAt` at all.  A purchased bundle that is located,
non-exhausted, and whose seller, original key and provider resolve, is
resolved successfully and the request proceeds to the upstream provider
call even when `expiresAt` is earlier than the current time. -/
theorem chat_expired_bundle_still_resolves :
    ∀ (db : List User) (user : User) (keyId : Nat) (now : Int)
      (tempKey : TempToken) (seller : User) (originalApiKey : ApiKey)
      (p : Provider),
      user.temporaryTokens.find? (fun k => k.id == keyId) = some tempKey →
      tempKey.expiresAt < now →
      0 < tempKey.tokensRemaining →
      findUser db tempKey.sellerId = some seller →
      seller.api_keys.find?
        (fun k => k.id == tempKey.originalApiKeyId) = some originalApiKey →
      getProviderFromModel (tempKey.apiKeyName.getD originalApiKey.name)
        = some p →
      resolveTempKey db user keyId =
        .ok { tempKey := tempKey, seller := seller,
              originalApiKey := originalApiKey, provider := p } :=
  fun db user keyId _now tempKey seller originalApiKey p
      hfind _hexp hpos hseller hkey hprov =>
    resolveTempKey_ignores_expiry db user keyId tempKey seller originalApiKey p
      hfind hpos hseller hkey hprov

/-- Witness for the amended C7: the concrete expired bundle of
`chat_expired_counterexample` resolves successfully. -/
theorem chat_expired_bundle_still_resolves_witness :
    resolveTempKey wDb2 wUser1 99 = .ok wResolved :=
  chat_expired_bundle_still_resolves wDb2 wUser1 99 100 wBoughtTok wSeller2
    wKey5 .openai
    (by simp [wUser1, wBoughtTok, List.find?])
    (by decide)
    (by decide)
    (by rw [wDb2_eq]; simp [findUser, wUser1, wSeller2, wBoughtTok, List.find?])
    (by simp [wSeller2, wKey5, wBoughtTok, List.find?])
    (by simp only [wBoughtTok, wKey5, Option.getD]; decide)

/-- C8: for every chat request (owned key or purchased bundle) whose
computed `tokensUsed` exceeds the quota source's remaining tokens, the
request fails `InsufficientTokens` and no debit is performed -- the store
is returned unchanged, so the key's `available` / the bundle's
`tokensRemaining` are exactly as before. -/
theorem chat_insufficient_tokens_no_debit :
    (∀ (db : List User) (userId keyId : Nat) (message modelId : String)
       (resp : ProviderResponse) (user : User) (r : TempResolved),
      message.isEmpty = false → modelId.isEmpty = false →
      findUser db userId = some user →
      resolveTempKey db user keyId = .ok r →
      r.tempKey.tokensRemaining < ((resp.usage.totalTokens : Nat) : Int) →
      chat db userId message .temp keyId modelId resp =
        (.error .insufficientTokens, db)) ∧
    (∀ (db : List User) (userId keyId : Nat) (message modelId : String)
       (resp : ProviderResponse) (user : User) (key : ApiKey) (p : Provider),
      message.isEmpty = false → modelId.isEmpty = false →
      findUser db userId = some user →
      user.api_keys.find? (fun k => k.id == keyId) = some key →
      getProviderFromModel key.name = some p →
      key.available < ((resp.usage.totalTokens : Nat) : Int) →
      chat db userId message .user keyId modelId resp =
        (.error .insufficientTokens, db)) := by
  constructor
  · intro db userId keyId message modelId resp user r hmsg hmod hu hr hlt
    simp only [chat, hu, hr]
    rw [if_neg (by simp [hmsg, hmod])]
    rw [if_pos hlt]
  · intro db userId keyId message modelId resp user key p hmsg hmod hu hk hp hlt
    simp only [chat, hu, hk, hp]
    rw [if_neg (by simp [hmsg, hmod])]
    rw [if_pos hlt]

def wRespBig : ProviderResponse :=
  { text := "x",
    usage := { promptTokens := 25, completionTokens := 25, totalTokens := 50 } }

def wRespHuge : ProviderResponse :=
  { text := "x",
    usage := { promptTokens := 1000, completionTokens := 1000, totalTokens := 2000 } }

/-- Witness for C8: a 50-token completion against a bundle holding 10
tokens, and a 2000-token completion against an owned key with 1000
available, both fail `InsufficientTokens` and leave the store unchanged. -/
theorem chat_insufficient_tokens_no_debit_witness :
    chat wDb2 1 "hi" .temp 99 "gpt-4" wRespBig =
      (.error .insufficientTokens, wDb2) ∧
    chat wDb2 2 "hi" .user 5 "gpt-4" wRespHuge =
      (.error .insufficientTokens, wDb2) := by
  constructor
  · refine chat_insufficient_tokens_no_debit.1 wDb2 1 99 "hi" "gpt-4" wRespBig
      wUser1 wResolved (by decide) (by decide) ?_ wResolve_eval ?_
    · rw [wDb2_eq]
      simp [findUser, wUser1, wSeller2, List.find?]
    · simp [wResolved, wBoughtTok, wRespBig]
  · refine chat_insufficient_tokens_no_debit.2 wDb2 2 5 "hi" "gpt-4" wRespHuge
      wSeller2 wKey5 .openai (by decide) (by decide) ?_ ?_ ?_ ?_
    · rw [wDb2_eq]
      simp [findUser, wUser1, wSeller2, List.find?]
    · simp [wSeller2, wKey5, List.find?]
    · simp only [wKey5]
      decide
    · simp [wKey5, wRespHuge]

/-- C10: the provider for a purchased bundle is inferred from the seller's
original key name rather than the bundle's own `name`: the chat handler
reads `apiKeyName` first and falls back to the original key's name, and
Purchase never sets `apiKeyName` on the bundles it appends, so the
fallback is always taken for bundles created by Purchase. -/
theorem chat_provider_from_original_key :
    (∀ (db : List User) (user : User) (keyId : Nat) (r : TempResolved),
      resolveTempKey db user keyId = .ok r →
      (r.tempKey.apiKeyName = none →
        getProviderFromModel r.originalApiKey.name = some r.provider) ∧
      (∀ nm, r.tempKey.apiKeyName = some nm →
        getProviderFromModel nm = some r.provider)) ∧
    (∀ (db : List User) (buyerId sellerId tokenId newId : Nat) (amount : ℚ)
       (o : BuyOk) (db' : List User) (buyer seller : User) (token : TempToken),
      buyTokens db buyerId sellerId tokenId amount newId = (.ok o, db') →
      buyerId ≠ sellerId →
      findUser db buyerId = some buyer →
      findUser db sellerId = some seller →
      seller.temporaryTokens.find? (fun t => t.id == tokenId) = some token →
      buyer.temporaryTokens.find?
        (fun t => t.name == token.name && t.sellerId == sellerId) = none →
      ∃ buyer2 newTok, findUser db' buyerId = some buyer2 ∧
        buyer2.temporaryTokens = buyer.temporaryTokens ++ [newTok] ∧
        newTok.apiKeyName = none ∧
        newTok.name = token.name ∧
        newTok.sellerId = sellerId ∧
        newTok.originalApiKeyId = token.originalApiKeyId) := by
  constructor
  · intro db user keyId r h
    obtain ⟨hfind, hpos, hseller, hkey, hprov⟩ := resolveTempKey_ok_elim h
    constructor
    · intro hnone
      rw [hnone] at hprov
      simpa using hprov
    · intro nm hsome
      rw [hsome] at hprov
      simpa using hprov
  · intro db buyerId sellerId tokenId newId amount o db' buyer seller token
      h hne hb hs ht hnone
    obtain ⟨buyer0, seller0, token0, hb0, hs0, ht0, hamt, hbal, hfl, hsup, heq⟩ :=
      buyTokens_ok_elim h
    have hbuy : buyer0 = buyer := by
      rw [hb0] at hb
      exact (Option.some.injEq _ _).mp hb
    subst hbuy
    have hsel : seller0 = seller := by
      rw [hs0] at hs
      exact (Option.some.injEq _ _).mp hs
    subst hsel
    have htok : token0 = token := by
      rw [ht0] at ht
      exact (Option.some.injEq _ _).mp ht
    subst htok
    have hdb : db' = (applyPurchase db buyerId sellerId tokenId newId buyer0 seller0
        token0 ⌊amount / token0.pricePerToken⌋).2 := by rw [← heq]
    have hafter := @applyPurchase_buyer_after db buyerId sellerId tokenId newId
      buyer0 seller0 token0 ⌊amount / token0.pricePerToken⌋ hb0 hs0 hne
    rw [hnone] at hafter
    exact ⟨_,
      { id := newId, name := token0.name, apiKey := token0.apiKey,
        apiKeyName := none,
        tokensRemaining := ⌊amount / token0.pricePerToken⌋,
        expiresAt := token0.expiresAt, pricePerToken := token0.pricePerToken,
        sellerId := sellerId, originalApiKeyId := token0.originalApiKeyId },
      by rw [hdb]; exact hafter, rfl, rfl, rfl, rfl, rfl⟩

/-- Witness for C10: the concrete purchased bundle of `wDb2` has
`apiKeyName = none`, so its provider comes from the original key name
"gpt-4-key"; and the concrete purchase appends a bundle with
`apiKeyName = none` and the provenance references of the seller bundle. -/
theorem chat_provider_from_original_key_witness :
    ((wResolved.tempKey.apiKeyName = none →
        getProviderFromModel wResolved.originalApiKey.name
          = some wResolved.provider) ∧
      (∀ nm, wResolved.tempKey.apiKeyName = some nm →
        getProviderFromModel nm = some wResolved.provider)) ∧
    (∃ buyer2 newTok, findUser wDb2 1 = some buyer2 ∧
      buyer2.temporaryTokens = wBuyer.temporaryTokens ++ [newTok] ∧
      newTok.apiKeyName = none ∧
      newTok.name = wSellerTok.name ∧
      newTok.sellerId = 2 ∧
      newTok.originalApiKeyId = wSellerTok.originalApiKeyId) := by
  constructor
  · exact chat_provider_from_original_key.1 wDb2 wUser1 99 wResolved wResolve_eval
  · refine chat_provider_from_original_key.2 wDb 1 2 10 99 5 wBuyOk wDb2
      wBuyer wSeller wSellerTok wBuy_eval (by decide) ?_ ?_ ?_ ?_
    · simp [findUser, wDb, wBuyer, wSeller, List.find?]
    · simp [findUser, wDb, wBuyer, wSeller, List.find?]
    · simp [wSeller, wSellerTok, List.find?]
    · simp [wBuyer]
